import Mathlib

/-!
Verification development for the autonomous drone-delivery simulator.

Shallow embedding of the simulation-and-decision core:
* `Drone` and its motion/charge/payload operations (src/environment/drone.py),
* the city spatial queries used by the step pipeline (src/environment/obstacles.py),
* the per-tick environment pipeline `EnvState.step` (src/environment/city.py),
* the rule engine (src/ai/logic_engine.py),
* the tabular value function accessors (src/ai/q_learning.py),
* the hybrid arbiter `chooseAction` (src/ai/hybrid_controller.py).

Numeric conventions: Python floats are modelled by `ℚ`.  Every arithmetic
expression the embedded operations perform is exact in `ℚ` (the movement
energy is only ever computed for a unit axis step, where the square root in
`_calculate_movement_energy` equals 1).  Stochastic inputs (the post-update
weather snapshot and the wind-effect vector, drawn inside `WeatherSystem`)
are passed to `step` as explicit parameters, as is standard for a shallow
embedding of code that reads a random generator.  Exceptions raised by rule
predicates are modelled by `Option`: a condition that raises returns `none`.
-/

set_option autoImplicit false

namespace DroneDelivery

/-! ### Configuration constants (src/utils/config.py) -/

def GRID_SIZE : ℚ := 50
def MAX_ALTITUDE : ℚ := 12
def ALTITUDE_STEP : ℚ := 20
def CELL_SIZE : ℚ := 100
def MAX_SPEED : ℚ := 60
def BATTERY_CAPACITY : ℚ := 5000
def ENERGY_PER_KM : ℚ := 50
def ENERGY_PER_ALTITUDE : ℚ := 10
def HOVER_ENERGY : ℚ := 5
def CHARGING_RATE : ℚ := 500
def MAX_STEPS_PER_EPISODE : ℕ := 1000

def REWARD_DELIVERY_SUCCESS : ℚ := 1000
def REWARD_FAST_DELIVERY_BONUS : ℚ := 100
def REWARD_BATTERY_EFFICIENT : ℚ := 50
def REWARD_COLLISION : ℚ := -500
def REWARD_BATTERY_DEPLETED : ℚ := -300
def REWARD_NO_FLY_INTERCEPTION : ℚ := -800
def REWARD_STORM_CRASH : ℚ := -600
def REWARD_PAYLOAD_SPOILED : ℚ := -400
def REWARD_TIME_PENALTY : ℚ := -1
def REWARD_CHARGING : ℚ := -50

def STORM_DAMAGE_THRESHOLD : ℕ := 2
def EXTREME_WIND_SPEED : ℚ := 50
def PAYLOAD_MAX_TIME : ℚ := 1800
def PAYLOAD_SPOILAGE_WARNING : ℚ := 1200

def MIN_BATTERY_EMERGENCY : ℚ := 5
def MIN_BATTERY_RETURN : ℚ := 20
def SAFETY_MAX_ALTITUDE_M : ℚ := 200
def SAFETY_MIN_ALTITUDE_M : ℚ := 10

/-- The canonical action set `ACTIONS` of config.py (also
`CityEnvironment.actions`). -/
def ACTIONS : List String :=
  ["MOVE_NORTH", "MOVE_SOUTH", "MOVE_EAST", "MOVE_WEST",
   "MOVE_UP", "MOVE_DOWN", "HOVER", "CHARGE"]

/-! ### Vehicle (src/environment/drone.py) -/

/-- A 3-component position `(x, y, altitude)`.  The source keeps it as a
Python list of numbers; coordinates may become non-integral because the wind
effect is a float vector. -/
structure Vec3 where
  x : ℚ
  y : ℚ
  z : ℚ
deriving DecidableEq

/-- Mutable state of `Drone`.  The telemetry-only fields `heading` and
`total_distance` (written with `np.arctan2` / `np.sqrt` and read by nothing
the core consults) are omitted; every other field of `Drone.reset` is kept.
`payload_condition` is one of the source's literal strings
"none" / "fresh" / "warning" / "spoiled". -/
structure Drone where
  position : Vec3
  battery : ℚ
  cargo : Option String
  has_package : Bool
  payload_locked : Bool
  payload_condition : String
  time_since_pickup : ℚ
  speed : ℚ
  is_charging : Bool
  is_crashed : Bool
  crash_reason : Option String
  flight_time : ℚ
  steps_in_storm : ℕ
deriving DecidableEq

/-- `Drone.reset` / `Drone.__init__`: fresh vehicle at `start`. -/
def Drone.mk0 (start : Vec3) : Drone where
  position := start
  battery := 100
  cargo := none
  has_package := false
  payload_locked := false
  payload_condition := "none"
  time_since_pickup := 0
  speed := 0
  is_charging := false
  is_crashed := false
  crash_reason := none
  flight_time := 0
  steps_in_storm := 0

/-- `Drone._calculate_movement_energy(dx, dy)`.  The source computes
`sqrt(dx²+dy²) * (CELL_SIZE/1000) * ENERGY_PER_KM` and multiplies by 1.2
when cargo is carried; every call site passes `(dx, dy) = (1, 0)`, for which
the square-root factor is exactly 1, so the function is embedded at that
argument. -/
def movementEnergy (hasPackage : Bool) : ℚ :=
  let energy := (CELL_SIZE / 1000) * ENERGY_PER_KM
  if hasPackage then energy * (12/10) else energy

/-- `Drone._charge`.  Returns the Python boolean result and the new state. -/
def Drone.chargeOp (d : Drone) : Bool × Drone :=
  if 100 ≤ d.battery then (false, d)
  else
    let b := min 100 (d.battery + (CHARGING_RATE / BATTERY_CAPACITY) * 100)
    let d1 : Drone := { d with is_charging := true, battery := b, speed := 0 }
    if 100 ≤ b then (true, { d1 with is_charging := false }) else (true, d1)

/-- The delta/energy selection of `move`'s elif ladder: each directional
action contributes a unit grid delta and its energy cost; `HOVER` and any
unrecognized action token fall through with a zero delta and hover energy
cost. -/
def moveDelta (action : String) (hasPackage : Bool) : Vec3 × ℚ :=
  if action == "MOVE_NORTH" then (⟨0, -1, 0⟩, movementEnergy hasPackage)
  else if action == "MOVE_SOUTH" then (⟨0, 1, 0⟩, movementEnergy hasPackage)
  else if action == "MOVE_EAST" then (⟨1, 0, 0⟩, movementEnergy hasPackage)
  else if action == "MOVE_WEST" then (⟨-1, 0, 0⟩, movementEnergy hasPackage)
  else if action == "MOVE_UP" then (⟨0, 0, 1⟩, ENERGY_PER_ALTITUDE)
  else if action == "MOVE_DOWN" then (⟨0, 0, -1⟩, ENERGY_PER_ALTITUDE * (1/2))
  else (⟨0, 0, 0⟩, HOVER_ENERGY)

/-- `Drone.move(action, wind_effect)`.  Returns `(success, new state)`.
The `CHARGE` branch of the source's elif chain dispatches to `_charge`.
The wind effect is added to the intended delta before the position is
clamped to the grid bounds. -/
def Drone.move (d : Drone) (action : String) (wind : ℚ × ℚ) : Bool × Drone :=
  if d.is_crashed || d.is_charging then (false, d)
  else if d.battery ≤ 0 then
    (false, { d with is_crashed := true, crash_reason := some "battery_depleted" })
  else if action == "CHARGE" then d.chargeOp
  else
    let md : Vec3 × ℚ := moveDelta action d.has_package
    let dx := md.1.x + wind.1
    let dy := md.1.y + wind.2
    let dz := md.1.z
    let newX := max 0 (min (GRID_SIZE - 1) (d.position.x + dx))
    let newY := max 0 (min (GRID_SIZE - 1) (d.position.y + dy))
    let newZ := max 0 (min (MAX_ALTITUDE - 1) (d.position.z + dz))
    let newBattery := max 0 (d.battery - (md.2 / BATTERY_CAPACITY) * 100)
    let newSpeed := if dx ≠ 0 ∨ dy ≠ 0 then MAX_SPEED else 0
    (true, { d with
              position := ⟨newX, newY, newZ⟩
              battery := newBattery
              speed := newSpeed
              flight_time := d.flight_time + 1 })

/-- `Drone.update_payload_condition(time_step)`. -/
def Drone.updatePayloadCondition (d : Drone) (timeStep : ℚ) : Drone :=
  if !d.has_package then d
  else
    let t := d.time_since_pickup + timeStep
    let cond :=
      if PAYLOAD_MAX_TIME ≤ t then "spoiled"
      else if PAYLOAD_SPOILAGE_WARNING ≤ t then "warning"
      else "fresh"
    { d with time_since_pickup := t, payload_condition := cond }

/-- `Drone.is_payload_spoiled`. -/
def Drone.isPayloadSpoiled (d : Drone) : Bool :=
  d.payload_condition == "spoiled"

/-- `Drone.crash(reason)`. -/
def Drone.crash (d : Drone) (reason : String) : Drone :=
  { d with is_crashed := true, crash_reason := some reason, speed := 0 }

/-- `Drone.pickup_cargo(cargo_type, pickup_location)`.  The stored pickup
coordinates are write-only bookkeeping and are not kept. -/
def Drone.pickupCargo (d : Drone) (cargoType : String) : Bool × Drone :=
  if d.has_package then (false, d)
  else
    (true, { d with
              cargo := some cargoType
              has_package := true
              payload_locked := true
              time_since_pickup := 0
              payload_condition := "fresh" })

/-- `Drone.deliver_cargo(delivery_location)`: returns the delivered cargo
type (`none` when not carrying) and the new state. -/
def Drone.deliverCargo (d : Drone) : Option String × Drone :=
  if !d.has_package then (none, d)
  else
    (d.cargo, { d with payload_locked := false, cargo := none, has_package := false })

/-! ### City spatial queries (src/environment/obstacles.py)

The city grid is generated randomly once per environment; the step pipeline
only consults it through `get_building_height`, `is_collision` and
`is_no_fly_zone`, so a `City` is embedded as the height map (a function of
truncated integer coordinates, mirroring `height_map[int(y), int(x)]`) and
the list of no-fly zones. -/

/-- Python `int()` truncation toward zero, applied by `get_building_height`
to possibly fractional coordinates. -/
def truncQ (q : ℚ) : ℤ :=
  if q < 0 then -Rat.floor (-q) else Rat.floor q

structure City where
  gridSize : ℚ
  /-- `height_map` lookup: `heightAt x y` is `height_map[y, x]`. -/
  heightAt : ℤ → ℤ → ℤ
  /-- No-fly zones as (center, radius); radii come from `randint(2, 5)` and
  are nonnegative. -/
  noFlyZones : List ((ℚ × ℚ) × ℕ)

/-- `CityObstacles.get_building_height(x, y)`: 0 outside the grid bounds. -/
def City.getBuildingHeight (c : City) (x y : ℚ) : ℤ :=
  if 0 ≤ x ∧ x < c.gridSize ∧ 0 ≤ y ∧ y < c.gridSize then
    c.heightAt (truncQ x) (truncQ y)
  else 0

/-- `CityObstacles.is_no_fly_zone(x, y)`.  The source compares
`sqrt((x-cx)² + (y-cy)²) ≤ radius`; with a nonnegative radius this is
equivalent to the squared comparison embedded here. -/
def City.isNoFlyZone (c : City) (x y : ℚ) : Bool :=
  c.noFlyZones.any fun z =>
    decide ((x - z.1.1) ^ 2 + (y - z.1.2) ^ 2 ≤ ((z.2 : ℚ)) ^ 2)

/-- `CityObstacles.is_collision(x, y, altitude)`. -/
def City.isCollision (c : City) (p : Vec3) : Bool :=
  decide (p.z ≤ (c.getBuildingHeight p.x p.y : ℚ))

/-! ### Environment step pipeline (src/environment/city.py) -/

/-- `MissionStatus`. -/
inductive MissionStatus where
  | IN_PROGRESS
  | SUCCESS
  | FAILED_COLLISION
  | FAILED_BATTERY
  | FAILED_TIMEOUT
  | FAILED_VIOLATION
  | FAILED_INTERCEPTION
  | FAILED_STORM
  | FAILED_PAYLOAD_SPOILED
deriving DecidableEq

/-- The weather snapshot `step` reads after `self.weather.update()`:
`condition.value` and `wind_speed`.  The update itself draws randomness, so
the post-update snapshot is an input of the embedded `step`. -/
structure WeatherIn where
  condition : String
  windSpeed : ℚ

/-- The per-mission mutable state of `CityEnvironment` that `step`
touches. -/
structure EnvState where
  drone : Drone
  targetPosition : Vec3
  currentStep : ℕ
  missionStatus : MissionStatus
  totalReward : ℚ
  violations : ℕ
  collisions : ℕ
  interceptions : ℕ
  stormCrashes : ℕ
  payloadSpoilages : ℕ
deriving DecidableEq

/-- `CityEnvironment._is_at_target`: within 1 cell of the target in every
coordinate (Chebyshev radius 1, altitude included). -/
def EnvState.isAtTarget (env : EnvState) : Bool :=
  decide (|env.drone.position.x - env.targetPosition.x| ≤ 1 ∧
          |env.drone.position.y - env.targetPosition.y| ≤ 1 ∧
          |env.drone.position.z - env.targetPosition.z| ≤ 1)

/-- Python truthiness of the `Optional[str]` returned by `deliver_cargo`:
`None` and the empty string are falsy. -/
def pyStrOptTruthy : Option String → Bool
  | none => false
  | some s => !s.isEmpty

/-- The portion of `CityEnvironment.step` past the two early-return
pre-flight checks: action execution followed by the unguarded check chain
(collision, interception, storm accumulation, arrival, penalties, timeout).
Factored out of `EnvState.step` for proof tractability; it recomputes the
same `curStep` / `drone1` values the early checks used. -/
def EnvState.stepMain (env : EnvState) (c : City) (action : String)
    (w : WeatherIn) (windEffect : ℚ × ℚ) : EnvState × ℚ × Bool :=
  let curStep := env.currentStep + 1
  let drone1 := env.drone.updatePayloadCondition 1
  -- Execute action
  let moved := drone1.move action windEffect
  let drone2 := moved.2
  -- Move-failure classification
  let failBattery : Bool :=
    !moved.1 && drone2.is_crashed && (drone2.crash_reason == some "battery_depleted")
  let failOther : Bool :=
    !moved.1 && drone2.is_crashed && !(drone2.crash_reason == some "battery_depleted")
  let reward0 : ℚ :=
    if failBattery then REWARD_BATTERY_DEPLETED
    else if failOther then REWARD_COLLISION else 0
  let done0 : Bool := failBattery || failOther
  let status0 : MissionStatus :=
    if failBattery then .FAILED_BATTERY
    else if failOther then .FAILED_COLLISION else env.missionStatus
  -- CHECK 3: structural collision
  let hitBuilding : Bool := c.isCollision drone2.position
  let drone3 := if hitBuilding then drone2.crash "collision" else drone2
  let reward1 := if hitBuilding then REWARD_COLLISION else reward0
  let done1 := hitBuilding || done0
  let status1 := if hitBuilding then .FAILED_COLLISION else status0
  let collisions1 := if hitBuilding then env.collisions + 1 else env.collisions
  -- CHECK 4: no-fly zone interception
  let inNoFly : Bool := c.isNoFlyZone drone3.position.x drone3.position.y
  let drone4 := if inNoFly then drone3.crash "no_fly_interception" else drone3
  let reward2 := if inNoFly then REWARD_NO_FLY_INTERCEPTION else reward1
  let done2 := inNoFly || done1
  let status2 := if inNoFly then .FAILED_INTERCEPTION else status1
  let interceptions1 := if inNoFly then env.interceptions + 1 else env.interceptions
  -- CHECK 5: storm accumulation (counter resets when weather is calm)
  let stormy : Bool := w.condition == "storm" || w.condition == "thunderstorm"
  let drone5 :=
    if stormy then { drone4 with steps_in_storm := drone4.steps_in_storm + 1 }
    else { drone4 with steps_in_storm := 0 }
  let stormCrash : Bool := stormy && decide (STORM_DAMAGE_THRESHOLD ≤ drone5.steps_in_storm)
  let drone6 := if stormCrash then drone5.crash "storm_damage" else drone5
  let reward3 := if stormCrash then REWARD_STORM_CRASH else reward2
  let done3 := stormCrash || done2
  let status3 := if stormCrash then .FAILED_STORM else status2
  let stormCrashes1 := if stormCrash then env.stormCrashes + 1 else env.stormCrashes
  -- Target arrival and delivery
  let atTarget : Bool := EnvState.isAtTarget { env with drone := drone6 }
  let delivered := if atTarget then drone6.deliverCargo else (none, drone6)
  let drone7 := delivered.2
  let success : Bool := atTarget && pyStrOptTruthy delivered.1
  let reward4 :=
    if success then
      REWARD_DELIVERY_SUCCESS
        + REWARD_FAST_DELIVERY_BONUS * (1 - (curStep : ℚ) / (MAX_STEPS_PER_EPISODE : ℚ))
        + REWARD_BATTERY_EFFICIENT * (drone7.battery / 100)
    else reward3
  let done4 := success || done3
  let status4 := if success then .SUCCESS else status3
  -- Time and charging penalties
  let reward5 := if !done4 then reward4 + REWARD_TIME_PENALTY else reward4
  let reward6 := if action == "CHARGE" then reward5 + REWARD_CHARGING else reward5
  -- Timeout check (not guarded by done: it overwrites status and reward)
  let timeout : Bool := decide (MAX_STEPS_PER_EPISODE ≤ curStep)
  let reward7 := if timeout then REWARD_COLLISION else reward6
  let done5 := timeout || done4
  let status5 := if timeout then .FAILED_TIMEOUT else status4
  ({ env with
      drone := drone7
      currentStep := curStep
      missionStatus := status5
      totalReward := env.totalReward + reward7
      collisions := collisions1
      interceptions := interceptions1
      stormCrashes := stormCrashes1 },
   reward7, done5)

/-- `CityEnvironment.step(action)`, returning the new environment state, the
reward and the `done` flag.  `w` is the weather snapshot after
`self.weather.update()`, `windEffect` the vector from `get_wind_effect()`.
The observation and info dictionaries returned by the source are pure reads
of the resulting state and are not part of this function. -/
def EnvState.step (env : EnvState) (c : City) (action : String)
    (w : WeatherIn) (windEffect : ℚ × ℚ) : EnvState × ℚ × Bool :=
  let curStep := env.currentStep + 1
  let drone1 := env.drone.updatePayloadCondition 1
  -- CHECK 1: payload spoilage (early return, before `total_reward` accrues)
  if drone1.isPayloadSpoiled then
    ({ env with
        drone := drone1
        currentStep := curStep
        missionStatus := .FAILED_PAYLOAD_SPOILED
        payloadSpoilages := env.payloadSpoilages + 1 },
     REWARD_PAYLOAD_SPOILED, true)
  -- CHECK 2: extreme weather (early return, before `total_reward` accrues)
  else if EXTREME_WIND_SPEED ≤ w.windSpeed then
    ({ env with
        drone := drone1.crash "storm_damage"
        currentStep := curStep
        missionStatus := .FAILED_STORM
        stormCrashes := env.stormCrashes + 1 },
     REWARD_STORM_CRASH, true)
  else
    env.stepMain c action w windEffect

/-! ### Observations (dict built by `CityEnvironment._get_state`)

The dynamic observation dictionary is embedded as a fixed-schema record of
exactly the keys the rule engine, value function and arbiter read.
`obstacle_nearby` models the optional key read by the `avoid_obstacles`
condition through `state.get('obstacle_nearby', False)`; the environment
never writes it. -/

/-- Per-direction predictive neighbor data, keyed by the four lateral move
actions. -/
structure Neighbors (α : Type) where
  north : α
  south : α
  east : α
  west : α
deriving DecidableEq

/-- `neighbor_buildings.get(action, default)` / `neighbor_no_fly.get(...)`:
lookup by move-action key; any other key misses. -/
def Neighbors.getOpt {α : Type} (n : Neighbors α) (a : String) : Option α :=
  if a == "MOVE_NORTH" then some n.north
  else if a == "MOVE_SOUTH" then some n.south
  else if a == "MOVE_EAST" then some n.east
  else if a == "MOVE_WEST" then some n.west
  else none

structure Obs where
  position : Vec3
  battery : ℚ
  has_cargo : Bool
  relative_target : Vec3
  nearby_obstacles : ℕ
  in_no_fly_zone : Bool
  building_height : ℤ
  neighbor_buildings : Neighbors ℤ
  neighbor_no_fly : Neighbors Bool
  wind_speed : ℚ
  safe_to_fly : Bool
  at_pickup_location : Bool
  at_delivery_location : Bool
  obstacle_nearby : Bool
deriving DecidableEq

/-! ### Rule engine (src/ai/logic_engine.py)

A rule condition is a Python callable that may raise; it is embedded as
`Obs → Option Bool`, where `none` models a raised exception.  All built-in
conditions are total (`some _`) on the fixed-schema observation. -/

inductive RuleType where
  | SAFETY
  | EFFICIENCY
  | MISSION
deriving DecidableEq, BEq

structure LRule where
  name : String
  ruleType : RuleType
  condition : Obs → Option Bool
  action : String
  priority : ℤ

/-- Safety rule "critical_battery" of `_load_safety_rules`. -/
def criticalBatteryRule : LRule where
  name := "critical_battery"
  ruleType := .SAFETY
  condition := fun o => some (decide (o.battery ≤ MIN_BATTERY_EMERGENCY))
  action := "HOVER"
  priority := 100

/-- Safety rule "bad_weather" of `_load_safety_rules`. -/
def badWeatherRule : LRule where
  name := "bad_weather"
  ruleType := .SAFETY
  condition := fun o => some (!o.safe_to_fly)
  action := "HOVER"
  priority := 95

/-- Safety rule "return_to_base" of `_load_safety_rules`. -/
def returnToBaseRule : LRule where
  name := "return_to_base"
  ruleType := .SAFETY
  condition := fun o => some (decide (o.battery ≤ MIN_BATTERY_RETURN) && !o.has_cargo)
  action := "return_to_base"
  priority := 90

/-- Safety rule "avoid_obstacles" of `_load_safety_rules`. -/
def avoidObstaclesRule : LRule where
  name := "avoid_obstacles"
  ruleType := .SAFETY
  condition := fun o => some (decide (0 < o.nearby_obstacles) || o.obstacle_nearby)
  action := "evade"
  priority := 88

/-- Safety rule "no_fly_zone" of `_load_safety_rules`. -/
def noFlyZoneRule : LRule where
  name := "no_fly_zone"
  ruleType := .SAFETY
  condition := fun o => some o.in_no_fly_zone
  action := "avoid_area"
  priority := 85

/-- Safety rule "safe_altitude" of `_load_safety_rules`. -/
def safeAltitudeRule : LRule where
  name := "safe_altitude"
  ruleType := .SAFETY
  condition := fun o => some (decide (SAFETY_MAX_ALTITUDE_M < o.position.z * ALTITUDE_STEP ∨
                                      o.position.z * ALTITUDE_STEP < SAFETY_MIN_ALTITUDE_M))
  action := "adjust_altitude"
  priority := 80

/-- Mission rule "deliver_cargo" of `_load_mission_rules`. -/
def deliverCargoRule : LRule where
  name := "deliver_cargo"
  ruleType := .MISSION
  condition := fun o => some (o.has_cargo && o.at_delivery_location)
  action := "deliver"
  priority := 65

/-- Mission rule "pickup_cargo" of `_load_mission_rules`. -/
def pickupCargoRule : LRule where
  name := "pickup_cargo"
  ruleType := .MISSION
  condition := fun o => some (!o.has_cargo && o.at_pickup_location &&
                              decide (MIN_BATTERY_RETURN + 20 < o.battery))
  action := "pickup"
  priority := 60

/-- Mission rule "go_to_delivery" of `_load_mission_rules`. -/
def goToDeliveryRule : LRule where
  name := "go_to_delivery"
  ruleType := .MISSION
  condition := fun o => some (o.has_cargo && !o.at_delivery_location)
  action := "move_to_delivery"
  priority := 55

/-- Mission rule "go_to_pickup" of `_load_mission_rules`. -/
def goToPickupRule : LRule where
  name := "go_to_pickup"
  ruleType := .MISSION
  condition := fun o => some (!o.has_cargo && !o.at_pickup_location &&
                              decide (MIN_BATTERY_RETURN + 30 < o.battery))
  action := "move_to_pickup"
  priority := 50

/-- Efficiency rule "conserve_energy" of `_load_efficiency_rules`. -/
def conserveEnergyRule : LRule where
  name := "conserve_energy"
  ruleType := .EFFICIENCY
  condition := fun o => some (decide (o.battery < 40))
  action := "conserve_energy"
  priority := 40

/-- Efficiency rule "direct_path" of `_load_efficiency_rules`. -/
def directPathRule : LRule where
  name := "direct_path"
  ruleType := .EFFICIENCY
  condition := fun o => some (decide (50 < o.battery) && decide (o.nearby_obstacles = 0) &&
                              o.safe_to_fly)
  action := "move_direct"
  priority := 30

/-- Efficiency rule "optimal_altitude" of `_load_efficiency_rules`. -/
def optimalAltitudeRule : LRule where
  name := "optimal_altitude"
  ruleType := .EFFICIENCY
  condition := fun o => some (decide (15 < o.wind_speed) && decide (o.position.z < 80))
  action := "climb_higher"
  priority := 25

/-- The 13 built-in rules of `_load_safety_rules` / `_load_efficiency_rules`
/ `_load_mission_rules`, in the order maintained by `add_rule` (which
re-sorts the list by descending priority on every insertion; all built-in
priorities are distinct, so the stable sort yields exactly this descending
order). -/
def defaultRules : List LRule :=
  [criticalBatteryRule, badWeatherRule, returnToBaseRule, avoidObstaclesRule,
   noFlyZoneRule, safeAltitudeRule, deliverCargoRule, pickupCargoRule,
   goToDeliveryRule, goToPickupRule, conserveEnergyRule, directPathRule,
   optimalAltitudeRule]

/-- `LogicEngine.evaluate_rules`: every condition is evaluated inside a
per-rule try/except; a raising condition is logged and recorded as not
triggered. -/
def evaluateRules (rules : List LRule) (o : Obs) : List (LRule × Bool) :=
  rules.map fun r =>
    match r.condition o with
    | some b => (r, b)
    | none => (r, false)

/-- `LogicEngine.get_triggered_rules`. -/
def triggeredRules (rules : List LRule) (o : Obs) : List LRule :=
  ((evaluateRules rules o).filter fun rb => rb.2).map Prod.fst

/-- `LogicEngine.get_recommended_action`: the top-priority triggered rule's
action, or the "continue" sentinel. -/
def recommendedAction (rules : List LRule) (o : Obs) : String × Option LRule :=
  match triggeredRules rules o with
  | [] => ("continue", none)
  | top :: _ => (top.action, some top)

/-- The static violation table of `_action_violates_rule`
(`violations.get(rule.name, [])`). -/
def staticViolationActions (name : String) : List String :=
  if name == "critical_battery" then
    ["MOVE_UP", "HOVER", "MOVE_NORTH", "MOVE_SOUTH", "MOVE_EAST", "MOVE_WEST"]
  else if name == "bad_weather" then
    ["MOVE_UP", "MOVE_NORTH", "MOVE_SOUTH", "MOVE_EAST", "MOVE_WEST"]
  else []

/-- `LogicEngine._action_violates_rule(action, rule, state)`.  HOVER, CHARGE
and "wait" are exempt before any rule-specific branch; the no-fly and
obstacle-avoidance rules use the predictive neighbor data; everything else
falls back to the static table. -/
def actionViolatesRule (action : String) (r : LRule) (o : Obs) : Bool :=
  if action == "HOVER" || action == "CHARGE" || action == "wait" then false
  else if r.name == "no_fly_zone" && (o.neighbor_no_fly.getOpt action).getD false then true
  else if r.name == "avoid_obstacles" &&
          (action == "MOVE_NORTH" || action == "MOVE_SOUTH" ||
           action == "MOVE_EAST" || action == "MOVE_WEST") &&
          decide (o.position.z ≤ (((o.neighbor_buildings.getOpt action).getD 0 : ℤ) : ℚ)) then
    true
  else if r.name == "avoid_obstacles" && action == "MOVE_DOWN" &&
          decide (o.position.z - 1 ≤ (o.building_height : ℚ)) then
    true
  else (staticViolationActions r.name).contains action

/-- `rules.filter(rule_type == SAFETY)` inside `is_action_safe`. -/
def safetyRules (rules : List LRule) : List LRule :=
  rules.filter fun r => r.ruleType == RuleType.SAFETY

/-- The violated-rule accumulation loop of `is_action_safe`.  Unlike
`evaluate_rules`, the safety conditions are re-evaluated here with no
try/except, so a raising condition (`none`) aborts the whole check. -/
def collectViolated (o : Obs) (action : String) : List LRule → Option (List LRule)
  | [] => some []
  | r :: rs =>
    match r.condition o with
    | none => none
    | some trig =>
      match collectViolated o action rs with
      | none => none
      | some rest =>
        some (if trig && actionViolatesRule action r o then r :: rest else rest)

/-- `LogicEngine.is_action_safe(state, action) -> (is_safe, violated)`.
`none` models the call raising because some safety rule's condition
raised. -/
def isActionSafe (rules : List LRule) (o : Obs) (action : String) :
    Option (Bool × List LRule) :=
  match collectViolated o action (safetyRules rules) with
  | none => none
  | some violated => some (violated.isEmpty, violated)

/-- The filtering loop of `get_valid_actions` (each iteration calls
`is_action_safe`, which can raise). -/
def collectValid (rules : List LRule) (o : Obs) : List String → Option (List String)
  | [] => some []
  | a :: rest =>
    match isActionSafe rules o a with
    | none => none
    | some sv =>
      match collectValid rules o rest with
      | none => none
      | some vs => some (if sv.1 then a :: vs else vs)

/-- `LogicEngine.get_valid_actions(state, all_actions)`: filters the action
set through `is_action_safe` and falls back to `["wait"]` only when the
filtered list is empty and "wait" is among the candidate actions. -/
def getValidActions (rules : List LRule) (o : Obs) (allActions : List String) :
    Option (List String) :=
  match collectValid rules o allActions with
  | none => none
  | some valid =>
    some (if valid.isEmpty && allActions.contains "wait" then ["wait"] else valid)

/-! ### Tabular value function (src/ai/q_learning.py)

`q_table` is a `defaultdict(lambda: defaultdict(float))`; indexing a missing
key INSERTS the default (at the end, matching dict insertion order).  It is
embedded as an association list, with the lookup operations returning the
possibly-extended table. -/

/-- The discretized state key built by `get_state_key`. -/
structure StateKey where
  distanceBin : ℕ
  batteryBin : ℤ
  hasPackage : ℕ
  weatherSafe : ℕ
  direction : ℕ
  obstaclesNearby : ℕ
  inNoFly : ℕ
deriving DecidableEq

/-- `QLearningAgent.get_state_key(state)`.  `int(|dx|+|dy|)` truncates a
nonnegative float (= floor); `battery // 10` is float floor division. -/
def getStateKey (o : Obs) : StateKey where
  distanceBin := min ((|o.relative_target.x| + |o.relative_target.y|).floor.toNat / 5) 10
  batteryBin := (o.battery / 10).floor
  hasPackage := if o.has_cargo then 1 else 0
  weatherSafe := if o.safe_to_fly then 1 else 0
  direction :=
    if |o.relative_target.y| < |o.relative_target.x| then
      (if 0 < o.relative_target.x then 0 else 4)
    else
      (if 0 < o.relative_target.y then 2 else 6)
  obstaclesNearby := min o.nearby_obstacles 5
  inNoFly := if o.in_no_fly_zone then 1 else 0

abbrev QInner := List (String × ℚ)
abbrev QTable := List (StateKey × QInner)

/-- Inner-defaultdict indexing `inner[action]`: returns the stored value or
inserts `0.0` for a missing action key. -/
def innerGet : QInner → String → ℚ × QInner
  | [], a => (0, [(a, 0)])
  | (k, v) :: rest, a =>
    if k == a then (v, (k, v) :: rest)
    else
      let r := innerGet rest a
      (r.1, (k, v) :: r.2)

/-- Outer-defaultdict indexing `q_table[state_key]`: returns the inner map
or inserts an empty one for a missing state key. -/
def tableGet : QTable → StateKey → QInner × QTable
  | [], s => ([], [(s, [])])
  | (k, inner) :: rest, s =>
    if k = s then (inner, (k, inner) :: rest)
    else
      let r := tableGet rest s
      (r.1, (k, inner) :: r.2)

/-- Replace the (present) entry for `s`. -/
def tableSet : QTable → StateKey → QInner → QTable
  | [], _, _ => []
  | (k, inner) :: rest, s, v =>
    if k = s then (k, v) :: rest else (k, inner) :: tableSet rest s v

/-- The composite access `q_table[state_key][action]`: the inner defaultdict
returned by the outer lookup is the same object stored in the table, so the
action-key insertion is visible in the table afterwards. -/
def tableGetThen (t : QTable) (s : StateKey) (a : String) : ℚ × QTable :=
  let outer := tableGet t s
  let inner := innerGet outer.1 a
  (inner.1, tableSet outer.2 s inner.2)

/-- The fields of `QLearningAgent` the arbiter reads. -/
structure QAgent where
  actions : List String
  q_table : QTable
  epsilon : ℚ
deriving DecidableEq

/-- `QLearningAgent.get_q_value(state, action)`: a pure read in intent, but
the defaultdict indexing inserts entries for missing keys, so the possibly
extended agent is returned alongside the value. -/
def getQValue (ag : QAgent) (o : Obs) (a : String) : ℚ × QAgent :=
  let r := tableGetThen ag.q_table (getStateKey o) a
  (r.1, { ag with q_table := r.2 })

/-- The dict comprehension of `_get_best_action`: one
`q_table[state_key][action]` access per candidate action, in order. -/
def buildQValues (t : QTable) (s : StateKey) : List String → List (String × ℚ) × QTable
  | [] => ([], t)
  | a :: rest =>
    let r := tableGetThen t s a
    let rs := buildQValues r.2 s rest
    ((a, r.1) :: rs.1, rs.2)

/-- Python `max(q_values, key=q_values.get)`: the first key attaining the
maximum (later keys replace only on a strictly greater value). -/
def argmaxFirst : List (String × ℚ) → Option String
  | [] => none
  | (a, v) :: rest => some (argmaxGo a v rest)
where argmaxGo (best : String) (bv : ℚ) : List (String × ℚ) → String
  | [] => best
  | (a, v) :: rest => if bv < v then argmaxGo a v rest else argmaxGo best bv rest

/-- `QLearningAgent._get_best_action(state, valid_actions)` (also
`get_best_action_greedy`, which the arbiter calls with the safe-action
list).  `none` models the `np.random.choice([])` error on an empty
candidate list. -/
def getBestAction (ag : QAgent) (o : Obs) (validActions : List String) :
    Option String × QAgent :=
  let r := buildQValues ag.q_table (getStateKey o) validActions
  (argmaxFirst r.1, { ag with q_table := r.2 })

/-- The per-action `get_q_value` loop filling `decision_info['q_values']`. -/
def buildQValuesAg : QAgent → Obs → List String → List (String × ℚ) × QAgent
  | ag, _, [] => ([], ag)
  | ag, o, a :: rest =>
    let r := getQValue ag o a
    let rs := buildQValuesAg r.2 o rest
    ((a, r.1) :: rs.1, rs.2)

/-! ### Hybrid arbiter (src/ai/hybrid_controller.py) -/

/-- The `decision_info` dictionary (explainability contract).
`decision_type` starts as Python `None`, modelled by `""`; every branch
overwrites it. -/
structure DecisionInfo where
  triggered_rules : ℕ
  top_rule : Option String
  safe_actions_count : ℕ
  recommended_action : String
  decision_type : String
  q_values : List (String × ℚ)
  safety_override : Bool
  violated_rules : List String

/-- `HybridController` state: the action list, both layers, and the running
counters. -/
structure HController where
  actions : List String
  qagent : QAgent
  rules : List LRule
  decisions_made : ℕ
  safety_overrides : ℕ
  logic_suggestions : ℕ

/-- The critical-override filter of `choose_action` step 4-a: triggered
SAFETY rules with priority ≥ 90. -/
def isCriticalRule (r : LRule) : Bool :=
  r.ruleType == RuleType.SAFETY && decide ((90 : ℤ) ≤ r.priority)

/-- `HybridController._get_goal_oriented_action(state, safe_actions)`:
among the candidate actions, the first one minimizing the post-step
Manhattan distance to the target (strict improvement on ties from the
`float('inf')` start), returned only when it strictly improves on the
current distance. -/
def goalOrientedAction (o : Obs) (safeActions : List String) : Option String :=
  let dx := o.relative_target.x
  let dy := o.relative_target.y
  let dz := o.relative_target.z
  let best := goalLoop dx dy dz none none safeActions
  match best.2 with
  | none => none
  | some m => if m < |dx| + |dy| + |dz| then best.1 else none
where
  actionDelta (a : String) : ℚ × ℚ × ℚ :=
    if a == "MOVE_NORTH" then (0, -1, 0)
    else if a == "MOVE_SOUTH" then (0, 1, 0)
    else if a == "MOVE_EAST" then (1, 0, 0)
    else if a == "MOVE_WEST" then (-1, 0, 0)
    else if a == "MOVE_UP" then (0, 0, 1)
    else if a == "MOVE_DOWN" then (0, 0, -1)
    else (0, 0, 0)
  goalLoop (dx dy dz : ℚ) (best : Option String) (minDist : Option ℚ) :
      List String → Option String × Option ℚ
  | [] => (best, minDist)
  | a :: rest =>
    let d := actionDelta a
    let newDist := |dx - d.1| + |dy - d.2.1| + |dz - d.2.2|
    match minDist with
    | none => goalLoop dx dy dz (some a) (some newDist) rest
    | some m =>
      if newDist < m then goalLoop dx dy dz (some a) (some newDist) rest
      else goalLoop dx dy dz best (some m) rest

/-- `HybridController.choose_action(state, training)`.  Returns the chosen
action, the decision info and the updated controller; `none` models the
call raising (possible only through the uncaught re-evaluation of rule
conditions inside `get_valid_actions` / `is_action_safe`, or the empty-list
`np.random.choice`). -/
def chooseAction (c : HController) (o : Obs) (training : Bool) :
    Option (String × DecisionInfo × HController) :=
  let c1 : HController := { c with decisions_made := c.decisions_made + 1 }
  let triggered := triggeredRules c.rules o
  let recTop := recommendedAction c.rules o
  match getValidActions c.rules o c.actions with
  | none => none
  | some safeActions =>
    let info0 : DecisionInfo :=
      { triggered_rules := triggered.length
        top_rule := recTop.2.map LRule.name
        safe_actions_count := safeActions.length
        recommended_action := recTop.1
        decision_type := ""
        q_values := []
        safety_override := false
        violated_rules := [] }
    let branch : Option (String × DecisionInfo × HController) :=
      match triggered.filter isCriticalRule with
      | cr :: _ =>
        -- (a) critical safety override
        some (cr.action,
              { info0 with decision_type := "safety_critical", safety_override := true },
              { c1 with safety_overrides := c1.safety_overrides + 1 })
      | [] =>
        if safeActions.isEmpty then
          -- (c) no safe action: forced emergency action
          some ("emergency_land",
                { info0 with decision_type := "emergency", safety_override := true },
                { c1 with safety_overrides := c1.safety_overrides + 1 })
        else
          -- (b) learned policy restricted to the safe set, with the
          -- goal-oriented heuristic in high-exploration / low-confidence mode
          match getBestAction c1.qagent o safeActions with
          | (none, _) => none
          | (some bestQ, ag1) =>
            let qv := getQValue ag1 o bestQ
            let ag2 := qv.2
            let picked : String × String :=
              if (training && decide ((3 : ℚ) / 10 < ag2.epsilon)) ||
                  decide (qv.1 < (1 : ℚ) / 10) then
                match goalOrientedAction o safeActions with
                | some m => (m, "goal_oriented_heuristic")
                | none => (bestQ, "hybrid_greedy")
              else (bestQ, "hybrid_greedy")
            let qvs := buildQValuesAg ag2 o safeActions
            some (picked.1,
                  { info0 with decision_type := picked.2, q_values := qvs.1 },
                  { c1 with qagent := qvs.2 })
    match branch with
    | none => none
    | some (a0, info1, c2) =>
      -- (5) post-hoc safety veto (bypassed only for the emergency branch)
      match isActionSafe c.rules o a0 with
      | none => none
      | some (isSafe, violated) =>
        let vetoed : String × DecisionInfo × HController :=
          if !isSafe && info1.decision_type != "emergency" then
            ("wait",
             { info1 with safety_override := true
                          violated_rules := violated.map LRule.name },
             { c2 with safety_overrides := c2.safety_overrides + 1 })
          else (a0, info1, c2)
        -- (6) logic-suggestion bookkeeping
        let c4 :=
          if recTop.1 != "" && vetoed.1 == recTop.1 then
            { vetoed.2.2 with logic_suggestions := vetoed.2.2.logic_suggestions + 1 }
          else vetoed.2.2
        some (vetoed.1, vetoed.2.1, c4)

/-! ### Concrete test fixtures used by witnesses and counterexamples -/

/-- A flat 50×50 city: no buildings, no no-fly zones. -/
def flatCity : City where
  gridSize := 50
  heightAt := fun _ _ => 0
  noFlyZones := []

/-- A clear-weather snapshot with moderate wind. -/
def clearWeather : WeatherIn where
  condition := "clear"
  windSpeed := 10

/-- A freshly reset vehicle at grid cell (5, 5), altitude level 2. -/
def droneAt552 : Drone := Drone.mk0 ⟨5, 5, 2⟩

/-- The laden vehicle right after the automatic pickup at mission start. -/
def droneLaden : Drone := (droneAt552.pickupCargo "blood_sample").2

/-- A mission state one tick before the episode cap, hovering right on the
delivery target while still carrying the cargo. -/
def envDeliverAtCap : EnvState where
  drone := droneLaden
  targetPosition := ⟨5, 5, 2⟩
  currentStep := 999
  missionStatus := .IN_PROGRESS
  totalReward := 0
  violations := 0
  collisions := 0
  interceptions := 0
  stormCrashes := 0
  payloadSpoilages := 0

/-- A mission state whose cargo has been aboard for 1850 s (past the 1800 s
spoilage threshold). -/
def envSpoilCase : EnvState :=
  { envDeliverAtCap with
      currentStep := 3
      drone := { droneLaden with time_since_pickup := 1850, payload_condition := "warning" } }

/-- Scenario A observation: battery forced to 3 %, safe flying weather,
clear surroundings. -/
def scenarioAObs : Obs where
  position := ⟨5, 5, 2⟩
  battery := 3
  has_cargo := true
  relative_target := ⟨3, 0, 0⟩
  nearby_obstacles := 0
  in_no_fly_zone := false
  building_height := 0
  neighbor_buildings := ⟨0, 0, 0, 0⟩
  neighbor_no_fly := ⟨false, false, false, false⟩
  wind_speed := 10
  safe_to_fly := true
  at_pickup_location := false
  at_delivery_location := false
  obstacle_nearby := false

/-- A freshly initialized learning agent: empty value table, ε = 1. -/
def agent0 : QAgent where
  actions := ACTIONS
  q_table := []
  epsilon := 1

/-- A freshly initialized hybrid controller over the built-in rules. -/
def controller0 : HController where
  actions := ACTIONS
  qagent := agent0
  rules := defaultRules
  decisions_made := 0
  safety_overrides := 0
  logic_suggestions := 0

/-- A user-registered SAFETY rule whose condition raises on every
observation (modelled by `none`), as `add_rule` admits. -/
def faultyRule : LRule where
  name := "faulty_rule"
  ruleType := .SAFETY
  condition := fun _ => none
  action := "HOVER"
  priority := 82

/-! ## Theorems -/

set_option maxHeartbeats 1000000 in
/-- C3: battery stays in [0,100] under every vehicle operation — `move`
clamps at 0 when the energy cost exceeds the remaining charge, `_charge`
clamps at 100 — and a depleted battery makes the next move attempt fail
with a `battery_depleted` crash instead of a negative reading. -/
theorem claim3_battery_invariant (d : Drone)
    (h0 : 0 ≤ d.battery) (h1 : d.battery ≤ 100) :
    (∀ a w, 0 ≤ (d.move a w).2.battery ∧ (d.move a w).2.battery ≤ 100) ∧
    (∀ r, (d.crash r).battery = d.battery) ∧
    (∀ t, (d.updatePayloadCondition t).battery = d.battery) ∧
    (∀ s, (d.pickupCargo s).2.battery = d.battery) ∧
    d.deliverCargo.2.battery = d.battery ∧
    (d.battery ≤ 0 → d.is_crashed = false → d.is_charging = false →
      ∀ a w, d.move a w =
        (false, { d with is_crashed := true, crash_reason := some "battery_depleted" })) := by
  have hq : (0 : ℚ) ≤ 100 := by norm_num
  refine ⟨?_, fun r => rfl, ?_, ?_, ?_, ?_⟩
  · intro a w
    simp only [Drone.move, Drone.chargeOp, moveDelta, movementEnergy,
      ENERGY_PER_ALTITUDE, HOVER_ENERGY, BATTERY_CAPACITY, CELL_SIZE,
      ENERGY_PER_KM, CHARGING_RATE, MAX_SPEED]
    split_ifs <;>
      refine ⟨?_, ?_⟩ <;>
      first
        | exact h0
        | exact h1
        | exact le_max_left 0 _
        | exact le_min hq (by linarith)
        | exact min_le_left _ _
        | exact max_le hq (by linarith)
  · intro t
    simp only [Drone.updatePayloadCondition]
    split_ifs <;> rfl
  · intro s
    simp only [Drone.pickupCargo]
    split_ifs <;> rfl
  · simp only [Drone.deliverCargo]
    split_ifs <;> rfl
  · intro hb hcr hch a w
    simp only [Drone.move, hcr, hch]
    split_ifs with hg
    · simp at hg
    · rfl

/-- C3 witness: a full battery stays in range across a laden move and a
depleted vehicle battery-crashes on its next move attempt. -/
theorem claim3_battery_invariant_witness :
    (0 ≤ (droneLaden.move "MOVE_NORTH" (0, 0)).2.battery ∧
      (droneLaden.move "MOVE_NORTH" (0, 0)).2.battery ≤ 100) ∧
    ({ droneLaden with battery := 0 }.move "MOVE_EAST" (0, 0)).2.crash_reason =
      some "battery_depleted" := by
  constructor
  · exact (claim3_battery_invariant droneLaden
      (show (0 : ℚ) ≤ 100 by norm_num) (show (100 : ℚ) ≤ 100 by norm_num)).1
      "MOVE_NORTH" (0, 0)
  · have h := (claim3_battery_invariant { droneLaden with battery := 0 }
      (le_refl 0) (show (0 : ℚ) ≤ 100 by norm_num)).2.2.2.2.2
      (le_refl 0) rfl rfl "MOVE_EAST" (0, 0)
    rw [h]

/-- C10: once a CHARGE action starts a charge that leaves the battery still
below 100, the charging flag is set and no operation but reset clears it;
every later move call (any action, CHARGE included) fails at the
already-charging guard without touching position or battery. -/
theorem claim10_charging_trap (d : Drone) (w : ℚ × ℚ)
    (hcr : d.is_crashed = false) (hch : d.is_charging = false)
    (hb0 : 0 < d.battery) (hb : d.battery + 10 < 100) :
    (d.move "CHARGE" w).1 = true ∧ (d.move "CHARGE" w).2.is_charging = true ∧
    (∀ e : Drone, e.is_charging = true →
      (∀ a w2, e.move a w2 = (false, e)) ∧
      (∀ r, (e.crash r).is_charging = true) ∧
      (∀ t, (e.updatePayloadCondition t).is_charging = true) ∧
      (∀ s, (e.pickupCargo s).2.is_charging = true) ∧
      e.deliverCargo.2.is_charging = true) := by
  have hcharge : d.move "CHARGE" w = d.chargeOp := by
    simp [Drone.move, hcr, hch]
    intro h
    linarith
  have hrate : (CHARGING_RATE / BATTERY_CAPACITY) * 100 = (10 : ℚ) := by
    norm_num [CHARGING_RATE, BATTERY_CAPACITY]
  have hop : (d.chargeOp).1 = true ∧ (d.chargeOp).2.is_charging = true := by
    simp only [Drone.chargeOp, hrate]
    have hlt : d.battery < 100 := by linarith
    have hmin : min (100 : ℚ) (d.battery + 10) = d.battery + 10 :=
      min_eq_right (by linarith)
    rw [if_neg (by linarith), hmin, if_neg (by linarith)]
    exact ⟨rfl, rfl⟩
  refine ⟨hcharge ▸ hop.1, hcharge ▸ hop.2, ?_⟩
  intro e he
  refine ⟨?_, fun r => he ▸ rfl, ?_, ?_, ?_⟩
  · intro a w2
    simp [Drone.move, he]
  · intro t
    simp only [Drone.updatePayloadCondition]
    split_ifs <;> simpa using he
  · intro s
    simp only [Drone.pickupCargo]
    split_ifs <;> simpa using he
  · simp only [Drone.deliverCargo]
    split_ifs <;> simpa using he

/-- C10 witness: charging at 50 % battery traps the vehicle — the flag is
set and the next move attempt fails. -/
theorem claim10_charging_trap_witness :
    ({ droneAt552 with battery := 50 }.move "CHARGE" (0, 0)).2.is_charging = true ∧
    (({ droneAt552 with battery := 50 }.move "CHARGE" (0, 0)).2.move "MOVE_NORTH" (0, 0)).1
      = false := by
  have h := claim10_charging_trap { droneAt552 with battery := 50 } (0, 0)
    rfl rfl (show (0 : ℚ) < 50 by norm_num) (show (50 : ℚ) + 10 < 100 by norm_num)
  refine ⟨h.2.1, ?_⟩
  rw [(h.2.2 _ h.2.1).1 "MOVE_NORTH" (0, 0)]

/-- C7: with cargo aboard past the 1800-second spoilage threshold, the next
`step` call terminates with FAILED_PAYLOAD_SPOILED and the fixed spoilage
penalty, regardless of the requested action, the weather and the wind; the
early return runs no later pipeline stage. -/
theorem claim7_spoilage_terminal (env : EnvState) (c : City) (a : String)
    (w : WeatherIn) (wind : ℚ × ℚ)
    (hc : env.drone.has_package = true)
    (ht : 1800 < env.drone.time_since_pickup) :
    env.step c a w wind =
      ({ env with
          drone := env.drone.updatePayloadCondition 1
          currentStep := env.currentStep + 1
          missionStatus := .FAILED_PAYLOAD_SPOILED
          payloadSpoilages := env.payloadSpoilages + 1 },
       REWARD_PAYLOAD_SPOILED, true) := by
  have hspoiled : (env.drone.updatePayloadCondition 1).isPayloadSpoiled = true := by
    simp only [Drone.updatePayloadCondition, hc, Bool.not_true, Bool.false_eq_true,
      if_false, Drone.isPayloadSpoiled]
    rw [if_pos (by unfold PAYLOAD_MAX_TIME; linarith)]
    rfl
  simp only [EnvState.step, hspoiled, if_true]

/-- C7 witness: at `time_since_pickup = 1850 s` the next step spoils the
payload whatever action is requested. -/
theorem claim7_spoilage_terminal_witness :
    (envSpoilCase.step flatCity "MOVE_NORTH" clearWeather (0, 0)).1.missionStatus =
        .FAILED_PAYLOAD_SPOILED ∧
    (envSpoilCase.step flatCity "MOVE_NORTH" clearWeather (0, 0)).2.1 =
        REWARD_PAYLOAD_SPOILED := by
  rw [claim7_spoilage_terminal envSpoilCase flatCity "MOVE_NORTH" clearWeather (0, 0)
    rfl (show (1800 : ℚ) < 1850 by norm_num)]
  exact ⟨rfl, rfl⟩

/-- C8 counterexample: from integer cell (5, 5, 2), a MOVE_EAST under wind
effect (1/2, 0) lands at x = 13/2, which is no integer grid cell — the wind
vector is added to the intended delta and the clamped position is never
rounded. -/
theorem claim8_counterexample :
    ¬ ∃ k : ℤ, (droneAt552.move "MOVE_EAST" ((1 : ℚ)/2, 0)).2.position.x = (k : ℚ) := by
  rintro ⟨k, hk⟩
  have hx : (droneAt552.move "MOVE_EAST" ((1 : ℚ)/2, 0)).2.position.x = 13/2 := by
    simp [droneAt552, Drone.mk0, Drone.move, moveDelta, movementEnergy, GRID_SIZE,
      MAX_ALTITUDE, CELL_SIZE, ENERGY_PER_KM, BATTERY_CAPACITY, MAX_SPEED]
    norm_num
  rw [hx] at hk
  have h2 : ((2 * k : ℤ) : ℚ) = ((13 : ℤ) : ℚ) := by push_cast; linarith
  have h3 : (2 * k : ℤ) = 13 := Int.cast_injective h2
  omega

set_option maxHeartbeats 1000000 in
/-- Case analysis on the position a `move` can produce: either unchanged
(guard failures, charge) or the clamp of a wind-drifted delta whose vertical
component is one of -1, 0, 1. -/
theorem move_position_cases (d : Drone) (a : String) (w : ℚ × ℚ) :
    (d.move a w).2.position = d.position ∨
    ∃ dx dy dz : ℚ, (dz = 0 ∨ dz = 1 ∨ dz = -1) ∧
      (d.move a w).2.position =
        ⟨max 0 (min (GRID_SIZE - 1) (d.position.x + dx)),
         max 0 (min (GRID_SIZE - 1) (d.position.y + dy)),
         max 0 (min (MAX_ALTITUDE - 1) (d.position.z + dz))⟩ := by
  have hdz : (moveDelta a d.has_package).1.z = 0 ∨ (moveDelta a d.has_package).1.z = 1 ∨
      (moveDelta a d.has_package).1.z = -1 := by
    unfold moveDelta
    split_ifs <;> simp
  unfold Drone.move Drone.chargeOp
  dsimp only
  split_ifs
  all_goals
    first
      | exact Or.inl rfl
      | exact Or.inr ⟨_, _, _, hdz, rfl⟩

/-- C8 amended: `move` keeps all three coordinates clamped to the grid box
(x, y in [0, 49], altitude in [0, 11] ⊂ [0, MAX_ALTITUDE)) and keeps the
altitude an integer level, but x and y need not remain integers once a
non-integral wind vector has been added to the delta. -/
theorem claim8_position_bounds (d : Drone) (a : String) (w : ℚ × ℚ)
    (hx0 : 0 ≤ d.position.x) (hx1 : d.position.x ≤ 49)
    (hy0 : 0 ≤ d.position.y) (hy1 : d.position.y ≤ 49)
    (hz0 : 0 ≤ d.position.z) (hz1 : d.position.z ≤ 11)
    (hzint : ∃ k : ℤ, d.position.z = (k : ℚ)) :
    0 ≤ (d.move a w).2.position.x ∧ (d.move a w).2.position.x ≤ 49 ∧
    0 ≤ (d.move a w).2.position.y ∧ (d.move a w).2.position.y ≤ 49 ∧
    0 ≤ (d.move a w).2.position.z ∧ (d.move a w).2.position.z ≤ 11 ∧
    ∃ k : ℤ, (d.move a w).2.position.z = (k : ℚ) := by
  obtain ⟨k, hk⟩ := hzint
  have hxb : ∀ q : ℚ, 0 ≤ max 0 (min (GRID_SIZE - 1) q) ∧
      max 0 (min (GRID_SIZE - 1) q) ≤ 49 := by
    intro q
    exact ⟨le_max_left 0 _,
      max_le (by norm_num) (le_trans (min_le_left _ _) (by norm_num [GRID_SIZE]))⟩
  have hzb : ∀ q : ℚ, 0 ≤ max 0 (min (MAX_ALTITUDE - 1) q) ∧
      max 0 (min (MAX_ALTITUDE - 1) q) ≤ 11 := by
    intro q
    exact ⟨le_max_left 0 _,
      max_le (by norm_num) (le_trans (min_le_left _ _) (by norm_num [MAX_ALTITUDE]))⟩
  have hzc : ∀ dq : ℚ, (∃ j : ℤ, dq = (j : ℚ)) →
      ∃ m : ℤ, max 0 (min (MAX_ALTITUDE - 1) (d.position.z + dq)) = (m : ℚ) := by
    rintro dq ⟨j, rfl⟩
    refine ⟨max 0 (min 11 (k + j)), ?_⟩
    rw [hk]
    push_cast
    norm_num [MAX_ALTITUDE]
  rcases move_position_cases d a w with h | ⟨dx, dy, dz, hdz, h⟩
  · rw [h]
    exact ⟨hx0, hx1, hy0, hy1, hz0, hz1, k, hk⟩
  · rw [h]
    refine ⟨(hxb _).1, (hxb _).2, (hxb _).1, (hxb _).2, (hzb _).1, (hzb _).2, ?_⟩
    rcases hdz with rfl | rfl | rfl
    · exact hzc 0 ⟨0, by norm_num⟩
    · exact hzc 1 ⟨1, by norm_num⟩
    · exact hzc (-1) ⟨-1, by norm_num⟩

/-- C8 witness: the amended invariant applied to the fixture vehicle for a
wind-drifted lateral move. -/
theorem claim8_position_bounds_witness :
    0 ≤ (droneAt552.move "MOVE_EAST" ((1 : ℚ)/2, 0)).2.position.x ∧
    (droneAt552.move "MOVE_EAST" ((1 : ℚ)/2, 0)).2.position.x ≤ 49 ∧
    0 ≤ (droneAt552.move "MOVE_EAST" ((1 : ℚ)/2, 0)).2.position.y ∧
    (droneAt552.move "MOVE_EAST" ((1 : ℚ)/2, 0)).2.position.y ≤ 49 ∧
    0 ≤ (droneAt552.move "MOVE_EAST" ((1 : ℚ)/2, 0)).2.position.z ∧
    (droneAt552.move "MOVE_EAST" ((1 : ℚ)/2, 0)).2.position.z ≤ 11 ∧
    ∃ k : ℤ, (droneAt552.move "MOVE_EAST" ((1 : ℚ)/2, 0)).2.position.z = (k : ℚ) :=
  claim8_position_bounds droneAt552 "MOVE_EAST" ((1 : ℚ)/2, 0)
    (show (0 : ℚ) ≤ 5 by norm_num) (show (5 : ℚ) ≤ 49 by norm_num)
    (show (0 : ℚ) ≤ 5 by norm_num) (show (5 : ℚ) ≤ 49 by norm_num)
    (show (0 : ℚ) ≤ 2 by norm_num) (show (2 : ℚ) ≤ 11 by norm_num)
    ⟨2, rfl⟩

/-- Outer-defaultdict lookup of an absent state key appends an empty inner
map at the end of the table. -/
theorem tableGet_absent (t : QTable) (s : StateKey) (h : ∀ p ∈ t, p.1 ≠ s) :
    tableGet t s = ([], t ++ [(s, [])]) := by
  induction t with
  | nil => rfl
  | cons p rest ih =>
    obtain ⟨k, inner⟩ := p
    have hp : k ≠ s := h (k, inner) (List.mem_cons_self _ _)
    have hrest := ih fun q hq => h q (List.mem_cons_of_mem _ hq)
    simp [tableGet, if_neg hp, hrest]

/-- Writing back to the key just appended at the end of the table. -/
theorem tableSet_append_absent (t : QTable) (s : StateKey) (v : QInner)
    (h : ∀ p ∈ t, p.1 ≠ s) :
    tableSet (t ++ [(s, [])]) s v = t ++ [(s, v)] := by
  induction t with
  | nil => simp [tableSet]
  | cons p rest ih =>
    obtain ⟨k, inner⟩ := p
    have hp : k ≠ s := h (k, inner) (List.mem_cons_self _ _)
    have hrest := ih fun q hq => h q (List.mem_cons_of_mem _ hq)
    simp [tableSet, if_neg hp, hrest]

/-- C9 (amended): on a discretized state with no table entry, `get_q_value`
returns 0.0 for every action and never raises — but the defaultdict
indexing inserts a fresh `(state, action) ↦ 0.0` entry, so a lookup-only
access does enlarge the persisted table. -/
theorem claim9_get_q_value_default (ag : QAgent) (o : Obs) (a : String)
    (h : ∀ p ∈ ag.q_table, p.1 ≠ getStateKey o) :
    getQValue ag o a =
      (0, { ag with q_table := ag.q_table ++ [(getStateKey o, [(a, 0)])] }) := by
  simp only [getQValue, tableGetThen, tableGet_absent ag.q_table (getStateKey o) h,
    innerGet, tableSet_append_absent ag.q_table (getStateKey o) [(a, 0)] h]

/-- C9 witness: the fresh agent's empty table answers 0.0 for an unseen
state and gains exactly the queried entry. -/
theorem claim9_get_q_value_default_witness :
    getQValue agent0 scenarioAObs "HOVER" =
      (0, { agent0 with
              q_table := agent0.q_table ++ [(getStateKey scenarioAObs, [("HOVER", 0)])] }) :=
  claim9_get_q_value_default agent0 scenarioAObs "HOVER" (by simp [agent0])

/-- C9 counterexample: the claim's frame condition fails — a lookup-only
`get_q_value` on a missing state returns 0.0 but does NOT leave the value
table unchanged: the defaultdict indexing creates a spurious entry for the
queried state and (state, action) pair, which `save` would persist. -/
theorem claim9_counterexample :
    (getQValue agent0 scenarioAObs "HOVER").1 = 0 ∧
    (getQValue agent0 scenarioAObs "HOVER").2.q_table ≠ agent0.q_table := by
  constructor
  · rfl
  · simp [getQValue, tableGetThen, agent0, tableGet, innerGet, tableSet]

/-- C1 counterexample: delivering exactly at the episode-cap step.  The
arrival check fires (the cargo is released: `has_package` flips to false,
so SUCCESS and its reward were set), yet the returned status is
FAILED_TIMEOUT with the collision penalty — the timeout check is not
guarded by `done` and overwrites the terminal status and reward set earlier
in the same tick. -/
theorem claim1_counterexample :
    envDeliverAtCap.drone.has_package = true ∧
    (envDeliverAtCap.step flatCity "HOVER" clearWeather (0, 0)).1.drone.has_package
      = false ∧
    (envDeliverAtCap.step flatCity "HOVER" clearWeather (0, 0)).1.missionStatus =
      .FAILED_TIMEOUT ∧
    (envDeliverAtCap.step flatCity "HOVER" clearWeather (0, 0)).2.1 =
      REWARD_COLLISION := by
  refine ⟨rfl, ?_, ?_, ?_⟩ <;>
  · simp [EnvState.step, EnvState.stepMain, envDeliverAtCap, droneLaden, droneAt552,
      Drone.mk0, flatCity,
      clearWeather, Drone.updatePayloadCondition, Drone.isPayloadSpoiled, Drone.move,
      moveDelta, movementEnergy, Drone.chargeOp, Drone.crash, Drone.deliverCargo,
      Drone.pickupCargo, City.isCollision, City.getBuildingHeight, City.isNoFlyZone,
      EnvState.isAtTarget, pyStrOptTruthy, truncQ, min_def, max_def,
      EXTREME_WIND_SPEED, STORM_DAMAGE_THRESHOLD, PAYLOAD_MAX_TIME,
      PAYLOAD_SPOILAGE_WARNING, GRID_SIZE, MAX_ALTITUDE, MAX_STEPS_PER_EPISODE,
      HOVER_ENERGY, BATTERY_CAPACITY, REWARD_COLLISION, REWARD_DELIVERY_SUCCESS,
      REWARD_FAST_DELIVERY_BONUS, REWARD_BATTERY_EFFICIENT, REWARD_TIME_PENALTY,
      REWARD_CHARGING, MAX_SPEED]
    norm_num

/-- The post-move status cascade can produce any terminal constructor but
FAILED_TIMEOUT when the fallthrough status is not FAILED_TIMEOUT. -/
theorem statusChain_ne_timeout (b1 b2 b3 b4 b5 b6 : Bool) (s : MissionStatus)
    (hs : s ≠ .FAILED_TIMEOUT) :
    (if b1 then MissionStatus.SUCCESS else if b2 then .FAILED_STORM
     else if b3 then .FAILED_INTERCEPTION else if b4 then .FAILED_COLLISION
     else if b5 then .FAILED_BATTERY else if b6 then .FAILED_COLLISION else s)
      ≠ .FAILED_TIMEOUT := by
  split_ifs <;> simp_all

/-- C1 (amended): the spoilage and extreme-weather checks return early, but
the post-move checks are plain unguarded ifs.  Below the episode cap the
timeout check cannot fire, so no terminal status set in the tick is
replaced by FAILED_TIMEOUT; at the cap, however, the timeout check
overwrites whatever status and reward the earlier checks produced (unless a
pre-move check already returned early). -/
theorem claim1_step_order (env : EnvState) (c : City) (a : String)
    (w : WeatherIn) (wind : ℚ × ℚ)
    (hstat : env.missionStatus = .IN_PROGRESS) :
    (env.currentStep + 1 < MAX_STEPS_PER_EPISODE →
      (env.step c a w wind).1.missionStatus ≠ .FAILED_TIMEOUT) ∧
    (MAX_STEPS_PER_EPISODE ≤ env.currentStep + 1 →
      (env.drone.updatePayloadCondition 1).isPayloadSpoiled = false →
      w.windSpeed < EXTREME_WIND_SPEED →
      (env.step c a w wind).1.missionStatus = .FAILED_TIMEOUT ∧
      (env.step c a w wind).2.1 = REWARD_COLLISION) := by
  constructor
  · intro hlt
    have htimeF : decide (MAX_STEPS_PER_EPISODE ≤ env.currentStep + 1) = false := by
      simp only [decide_eq_false_iff_not, not_le]
      exact hlt
    have hmain : (env.stepMain c a w wind).1.missionStatus ≠ .FAILED_TIMEOUT := by
      unfold EnvState.stepMain
      dsimp only
      simp only [htimeF, Bool.false_eq_true, if_false]
      exact statusChain_ne_timeout _ _ _ _ _ _ _ (by rw [hstat]; simp)
    simp only [EnvState.step]
    split_ifs <;> simp_all
  · intro hge hspoil hwind
    have hne : ¬ (EXTREME_WIND_SPEED ≤ w.windSpeed) := not_le.mpr hwind
    have htimeT : decide (MAX_STEPS_PER_EPISODE ≤ env.currentStep + 1) = true := by
      simpa using hge
    have hmain : (env.stepMain c a w wind).1.missionStatus = .FAILED_TIMEOUT ∧
        (env.stepMain c a w wind).2.1 = REWARD_COLLISION := by
      constructor <;>
      · unfold EnvState.stepMain
        dsimp only
        simp only [htimeT, if_true]
    simp only [EnvState.step]
    split_ifs <;> simp_all

/-- C1 witness: the ordering theorem applied to the fixture missions — one
far from the cap (no timeout) and one at the cap (timeout overwrite). -/
theorem claim1_step_order_witness :
    (({ envDeliverAtCap with currentStep := 500 }.step flatCity "HOVER" clearWeather
        (0, 0)).1.missionStatus ≠ .FAILED_TIMEOUT) ∧
    (envDeliverAtCap.step flatCity "HOVER" clearWeather (0, 0)).1.missionStatus =
      .FAILED_TIMEOUT := by
  constructor
  · exact (claim1_step_order { envDeliverAtCap with currentStep := 500 } flatCity "HOVER"
      clearWeather (0, 0) rfl).1 (by norm_num [MAX_STEPS_PER_EPISODE, envDeliverAtCap])
  · exact ((claim1_step_order envDeliverAtCap flatCity "HOVER" clearWeather (0, 0)
      rfl).2 (by norm_num [MAX_STEPS_PER_EPISODE, envDeliverAtCap])
      (by simp [envDeliverAtCap, droneLaden, droneAt552, Drone.mk0, Drone.pickupCargo,
        Drone.updatePayloadCondition, Drone.isPayloadSpoiled, PAYLOAD_MAX_TIME,
        PAYLOAD_SPOILAGE_WARNING])
      (by norm_num [clearWeather, EXTREME_WIND_SPEED])).1

/-- HOVER is exempt in `_action_violates_rule` before any rule-specific
branch, so `is_action_safe` approves it against every observation. -/
theorem hover_safe (o : Obs) : isActionSafe defaultRules o "HOVER" = some (true, []) := by
  simp [isActionSafe, safetyRules, defaultRules, collectViolated, actionViolatesRule,
    criticalBatteryRule, badWeatherRule, returnToBaseRule, avoidObstaclesRule,
    noFlyZoneRule, safeAltitudeRule, deliverCargoRule, pickupCargoRule,
    goToDeliveryRule, goToPickupRule, conserveEnergyRule, directPathRule,
    optimalAltitudeRule]

/-- CHARGE is exempt in `_action_violates_rule` before any rule-specific
branch, so `is_action_safe` approves it against every observation. -/
theorem charge_safe (o : Obs) : isActionSafe defaultRules o "CHARGE" = some (true, []) := by
  simp [isActionSafe, safetyRules, defaultRules, collectViolated, actionViolatesRule,
    criticalBatteryRule, badWeatherRule, returnToBaseRule, avoidObstaclesRule,
    noFlyZoneRule, safeAltitudeRule, deliverCargoRule, pickupCargoRule,
    goToDeliveryRule, goToPickupRule, conserveEnergyRule, directPathRule,
    optimalAltitudeRule]

/-- "return_to_base" hits no predictive branch and no static violation
list, so `is_action_safe` approves it against every observation. -/
theorem return_to_base_safe (o : Obs) :
    isActionSafe defaultRules o "return_to_base" = some (true, []) := by
  simp [isActionSafe, safetyRules, defaultRules, collectViolated, actionViolatesRule,
    staticViolationActions, Neighbors.getOpt,
    criticalBatteryRule, badWeatherRule, returnToBaseRule, avoidObstaclesRule,
    noFlyZoneRule, safeAltitudeRule, deliverCargoRule, pickupCargoRule,
    goToDeliveryRule, goToPickupRule, conserveEnergyRule, directPathRule,
    optimalAltitudeRule]

/-- Under the built-in rules every safety condition is total, so
`is_action_safe` never raises. -/
theorem isActionSafe_default_isSome (o : Obs) (a : String) :
    (isActionSafe defaultRules o a).isSome = true := rfl

/-- One step of the `get_valid_actions` filtering loop preserves already
collected members. -/
theorem collectValid_cons_sub (rules : List LRule) (o : Obs) (a : String)
    (rest : List String) (p : Bool × List LRule) (v : List String)
    (hp : isActionSafe rules o a = some p)
    (hv : collectValid rules o rest = some v) :
    ∃ v2, collectValid rules o (a :: rest) = some v2 ∧ ∀ x ∈ v, x ∈ v2 := by
  refine ⟨if p.1 then a :: v else v, ?_, ?_⟩
  · simp [collectValid, hp, hv]
  · intro x hx
    split_ifs
    · exact List.mem_cons_of_mem _ hx
    · exact hx

/-- The safe-action list under the built-in rules always retains HOVER and
CHARGE. -/
theorem valid_default (o : Obs) :
    ∃ l, getValidActions defaultRules o ACTIONS = some l ∧
      "HOVER" ∈ l ∧ "CHARGE" ∈ l ∧ l ≠ [] := by
  have hc : collectValid defaultRules o ["CHARGE"] = some ["CHARGE"] := by
    simp [collectValid, charge_safe o]
  have hh : collectValid defaultRules o ["HOVER", "CHARGE"] =
      some ["HOVER", "CHARGE"] := by
    simp [collectValid, hover_safe o, charge_safe o]
  have hmemh : ("HOVER" ∈ (["HOVER", "CHARGE"] : List String)) ∧
      ("CHARGE" ∈ (["HOVER", "CHARGE"] : List String)) := by simp
  obtain ⟨p6, h6⟩ := Option.isSome_iff_exists.mp (isActionSafe_default_isSome o "MOVE_DOWN")
  obtain ⟨v6, hv6, s6⟩ := collectValid_cons_sub _ o _ _ p6 _ h6 hh
  obtain ⟨p5, h5⟩ := Option.isSome_iff_exists.mp (isActionSafe_default_isSome o "MOVE_UP")
  obtain ⟨v5, hv5, s5⟩ := collectValid_cons_sub _ o _ _ p5 _ h5 hv6
  obtain ⟨p4, h4⟩ := Option.isSome_iff_exists.mp (isActionSafe_default_isSome o "MOVE_WEST")
  obtain ⟨v4, hv4, s4⟩ := collectValid_cons_sub _ o _ _ p4 _ h4 hv5
  obtain ⟨p3, h3⟩ := Option.isSome_iff_exists.mp (isActionSafe_default_isSome o "MOVE_EAST")
  obtain ⟨v3, hv3, s3⟩ := collectValid_cons_sub _ o _ _ p3 _ h3 hv4
  obtain ⟨p2, h2⟩ := Option.isSome_iff_exists.mp (isActionSafe_default_isSome o "MOVE_SOUTH")
  obtain ⟨v2, hv2, s2⟩ := collectValid_cons_sub _ o _ _ p2 _ h2 hv3
  obtain ⟨p1, h1⟩ := Option.isSome_iff_exists.mp (isActionSafe_default_isSome o "MOVE_NORTH")
  obtain ⟨v1, hv1, s1⟩ := collectValid_cons_sub _ o _ _ p1 _ h1 hv2
  have hmem : "HOVER" ∈ v1 ∧ "CHARGE" ∈ v1 :=
    ⟨s1 _ (s2 _ (s3 _ (s4 _ (s5 _ (s6 _ hmemh.1))))),
     s1 _ (s2 _ (s3 _ (s4 _ (s5 _ (s6 _ hmemh.2)))))⟩
  have hne : v1 ≠ [] := List.ne_nil_of_mem hmem.1
  have hemp : v1.isEmpty = false := by
    cases v1 with
    | nil => exact absurd rfl hne
    | cons a l => rfl
  refine ⟨v1, ?_, hmem.1, hmem.2, hne⟩
  simp only [getValidActions, ACTIONS, hv1, hemp, Bool.false_and, Bool.false_eq_true,
    if_false]

/-- C4: over the full canonical action set, `get_valid_actions` under the
built-in rules never raises and never returns an empty list — HOVER, CHARGE
and "wait" never count as violating any safety rule, so HOVER and CHARGE
always survive the filter. -/
theorem claim4_valid_actions_nonempty :
    (∀ (r : LRule) (o : Obs),
      actionViolatesRule "HOVER" r o = false ∧
      actionViolatesRule "CHARGE" r o = false ∧
      actionViolatesRule "wait" r o = false) ∧
    (∀ o : Obs, ∃ l, getValidActions defaultRules o ACTIONS = some l ∧
      "HOVER" ∈ l ∧ "CHARGE" ∈ l ∧ l ≠ []) := by
  constructor
  · intro r o
    refine ⟨?_, ?_, ?_⟩ <;> simp [actionViolatesRule]
  · exact valid_default

/-- C5 counterexample: at battery 3 % with safe weather, `is_action_safe`
APPROVES HOVER (the blanket exemption short-circuits before the static
violation table that lists HOVER under critical_battery), and
`get_valid_actions` also keeps MOVE_DOWN and CHARGE — not only wait-class
actions. -/
theorem claim5_counterexample :
    isActionSafe defaultRules scenarioAObs "HOVER" = some (true, []) ∧
    getValidActions defaultRules scenarioAObs ACTIONS =
      some ["MOVE_DOWN", "HOVER", "CHARGE"] := by
  constructor
  · exact hover_safe scenarioAObs
  · simp [getValidActions, collectValid, isActionSafe, safetyRules, defaultRules,
      collectViolated, actionViolatesRule, scenarioAObs, staticViolationActions,
      Neighbors.getOpt, ACTIONS, MIN_BATTERY_EMERGENCY, MIN_BATTERY_RETURN, ALTITUDE_STEP,
      SAFETY_MAX_ALTITUDE_M, SAFETY_MIN_ALTITUDE_M,
      criticalBatteryRule, badWeatherRule, returnToBaseRule, avoidObstaclesRule,
      noFlyZoneRule, safeAltitudeRule, deliverCargoRule, pickupCargoRule,
      goToDeliveryRule, goToPickupRule, conserveEnergyRule, directPathRule,
      optimalAltitudeRule]
    norm_num

/-- C5 (amended): at battery 3 % (below the 5 % critical threshold) with
safe flying weather, the critical-battery rule (priority 100) is triggered
and MOVE_UP and all four lateral moves are vetoed; but HOVER and CHARGE
remain approved (the exemption in `_action_violates_rule` fires before the
static table), so the valid-action list is not restricted to wait-class
actions. -/
theorem claim5_critical_battery (o : Obs) (hb : o.battery = 3)
    (hs : o.safe_to_fly = true) :
    (∃ r ∈ triggeredRules defaultRules o, r.name = "critical_battery" ∧
      r.priority = 100 ∧ r.ruleType = .SAFETY) ∧
    (∀ a ∈ (["MOVE_UP", "MOVE_NORTH", "MOVE_SOUTH", "MOVE_EAST", "MOVE_WEST"] :
        List String),
      (isActionSafe defaultRules o a).map Prod.fst = some false) ∧
    isActionSafe defaultRules o "HOVER" = some (true, []) ∧
    isActionSafe defaultRules o "CHARGE" = some (true, []) := by
  have hcb : decide (o.battery ≤ MIN_BATTERY_EMERGENCY) = true := by
    rw [hb]
    norm_num [MIN_BATTERY_EMERGENCY]
  refine ⟨?_, ?_, hover_safe o, charge_safe o⟩
  · have hmem : criticalBatteryRule ∈ triggeredRules defaultRules o := by
      simp [triggeredRules, evaluateRules, defaultRules, criticalBatteryRule, hcb]
    exact ⟨criticalBatteryRule, hmem, rfl, rfl, rfl⟩
  · intro a ha
    fin_cases ha <;>
    · simp [isActionSafe, safetyRules, defaultRules, collectViolated, actionViolatesRule,
        staticViolationActions, Neighbors.getOpt, hb, hs, MIN_BATTERY_EMERGENCY,
        criticalBatteryRule, badWeatherRule, returnToBaseRule, avoidObstaclesRule,
        noFlyZoneRule, safeAltitudeRule, deliverCargoRule, pickupCargoRule,
        goToDeliveryRule, goToPickupRule, conserveEnergyRule, directPathRule,
        optimalAltitudeRule]
      try exact List.cons_ne_nil _ _
      try norm_num

/-- C5 witness: the amended scenario-A behavior at the concrete forced
observation. -/
theorem claim5_critical_battery_witness :
    (isActionSafe defaultRules scenarioAObs "MOVE_UP").map Prod.fst = some false ∧
    isActionSafe defaultRules scenarioAObs "CHARGE" = some (true, []) := by
  have h := claim5_critical_battery scenarioAObs rfl rfl
  exact ⟨h.2.1 "MOVE_UP" (by simp), h.2.2.2⟩

/-- C6 counterexample: a single faulting SAFETY rule makes the per-action
safety check raise — `is_action_safe` re-evaluates conditions with no
try/except, so the arbitration pass is NOT immune to a raising predicate. -/
theorem claim6_counterexample :
    isActionSafe (defaultRules ++ [faultyRule]) scenarioAObs "MOVE_NORTH" = none := rfl

/-- C6 (amended): `evaluate_rules` does catch per-rule — a raising
condition is recorded as not triggered, so `get_triggered_rules` and
`get_recommended_action` never raise; but `is_action_safe` (and therefore
`get_valid_actions` and the arbiter paths through them) re-evaluates the
safety conditions outside any try/except and propagates the exception. -/
theorem claim6_evaluation_catches (rules : List LRule) (o : Obs) :
    evaluateRules rules o = rules.map (fun r => (r, (r.condition o).getD false)) ∧
    ∀ r ∈ rules, r.condition o = none → r ∉ triggeredRules rules o := by
  have h1 : evaluateRules rules o =
      rules.map (fun r => (r, (r.condition o).getD false)) := by
    induction rules with
    | nil => rfl
    | cons r rs ih =>
      simp only [evaluateRules, List.map_cons] at ih ⊢
      cases hr : r.condition o <;> simp [hr, ih]
  refine ⟨h1, ?_⟩
  intro r hr hnone hmem
  rw [triggeredRules, h1] at hmem
  obtain ⟨pair, hpair, hfst⟩ := List.mem_map.mp hmem
  obtain ⟨hmem2, hsnd⟩ := List.mem_filter.mp hpair
  obtain ⟨r1, hmem1, hf⟩ := List.mem_map.mp hmem2
  have hcond : (r1.condition o).getD false = pair.2 := congrArg Prod.snd hf
  have hfst1 : r1 = pair.1 := congrArg Prod.fst hf
  rw [hfst1, hfst, hnone] at hcond
  simp [hsnd] at hcond

/-- C6 witness: with a raising rule appended, `evaluate_rules` still
returns the full catch-mapped list and the faulting rule is not
triggered. -/
theorem claim6_evaluation_catches_witness :
    evaluateRules (defaultRules ++ [faultyRule]) scenarioAObs =
      (defaultRules ++ [faultyRule]).map
        (fun r => (r, (r.condition scenarioAObs).getD false)) ∧
    faultyRule ∉ triggeredRules (defaultRules ++ [faultyRule]) scenarioAObs := by
  have h := claim6_evaluation_catches (defaultRules ++ [faultyRule]) scenarioAObs
  exact ⟨h.1, h.2 faultyRule (by simp) rfl⟩

/-- `get_triggered_rules` returns a sublist of the registered rule list. -/
theorem triggered_sublist (rules : List LRule) (o : Obs) :
    (triggeredRules rules o).Sublist rules := by
  induction rules with
  | nil => simp [triggeredRules, evaluateRules]
  | cons r rs ih =>
    simp only [triggeredRules, evaluateRules, List.map_cons] at ih ⊢
    cases hr : r.condition o with
    | none =>
      simp only [List.filter_cons]
      exact List.Sublist.cons r ih
    | some b =>
      cases b with
      | false =>
        simp only [List.filter_cons]
        exact List.Sublist.cons r ih
      | true =>
        simp only [List.filter_cons, List.map_cons]
        exact List.Sublist.cons₂ r ih

/-- The registered rule list is kept sorted by non-increasing priority
(`add_rule` re-sorts on every insertion; the built-in priorities are all
distinct). -/
theorem defaultRules_sorted :
    List.Pairwise (fun a b => b.priority ≤ a.priority) defaultRules := by
  simp [defaultRules, List.pairwise_cons, criticalBatteryRule, badWeatherRule,
    returnToBaseRule, avoidObstaclesRule, noFlyZoneRule, safeAltitudeRule,
    deliverCargoRule, pickupCargoRule, goToDeliveryRule, goToPickupRule,
    conserveEnergyRule, directPathRule, optimalAltitudeRule]

/-- The only built-in rules passing the critical-override filter (SAFETY
with priority ≥ 90) propose HOVER or the return_to_base token. -/
theorem critical_default_action (r : LRule) (hmem : r ∈ defaultRules)
    (hcrit : isCriticalRule r = true) :
    r.action = "HOVER" ∨ r.action = "return_to_base" := by
  fin_cases hmem <;>
    simp_all [isCriticalRule, criticalBatteryRule, badWeatherRule, returnToBaseRule,
      avoidObstaclesRule, noFlyZoneRule, safeAltitudeRule, deliverCargoRule,
      pickupCargoRule, goToDeliveryRule, goToPickupRule, conserveEnergyRule,
      directPathRule, optimalAltitudeRule]

/-- C2: whenever some triggered SAFETY rule has priority ≥ 90, the arbiter
takes the highest-priority such rule's proposed action in the
safety-critical branch, and the post-hoc veto never replaces it (the
proposed action — HOVER or return_to_base — always passes
`is_action_safe`), so the critical override is never suppressed. -/
theorem claim2_critical_override (c : HController) (o : Obs) (training : Bool)
    (r : LRule) (rest : List LRule)
    (hrules : c.rules = defaultRules) (hacts : c.actions = ACTIONS)
    (hcrit : (triggeredRules defaultRules o).filter isCriticalRule = r :: rest) :
    (chooseAction c o training).map
        (fun t => (t.1, t.2.1.decision_type, t.2.1.safety_override)) =
      some (r.action, "safety_critical", true) ∧
    ∀ r2 ∈ r :: rest, r2.priority ≤ r.priority := by
  have hmemf : r ∈ (triggeredRules defaultRules o).filter isCriticalRule := by
    rw [hcrit]
    exact List.mem_cons_self _ _
  have hmemt : r ∈ triggeredRules defaultRules o := (List.mem_filter.mp hmemf).1
  have hcr : isCriticalRule r = true := (List.mem_filter.mp hmemf).2
  have hmemd : r ∈ defaultRules := (triggered_sublist defaultRules o).subset hmemt
  have hsafe : isActionSafe defaultRules o r.action = some (true, []) := by
    rcases critical_default_action r hmemd hcr with h | h <;> rw [h]
    · exact hover_safe o
    · exact return_to_base_safe o
  obtain ⟨l, hl, -, -, -⟩ := valid_default o
  constructor
  · simp only [chooseAction, hrules, hacts, hl, hcrit, hsafe]
    simp
  · have hp : List.Pairwise (fun a b => b.priority ≤ a.priority) (r :: rest) := by
      rw [← hcrit]
      exact List.Pairwise.sublist
        ((List.filter_sublist _).trans (triggered_sublist defaultRules o))
        defaultRules_sorted
    intro r2 hr2
    rcases List.mem_cons.mp hr2 with rfl | h
    · exact le_refl _
    · exact (List.pairwise_cons.mp hp).1 r2 h

/-- C2 witness: at the critical-battery scenario observation the arbiter
returns HOVER through the safety-critical branch. -/
theorem claim2_critical_override_witness :
    (chooseAction controller0 scenarioAObs true).map
        (fun t => (t.1, t.2.1.decision_type, t.2.1.safety_override)) =
      some ("HOVER", "safety_critical", true) := by
  have hcrit : (triggeredRules defaultRules scenarioAObs).filter isCriticalRule =
      [criticalBatteryRule] := by
    simp [triggeredRules, evaluateRules, defaultRules, isCriticalRule, scenarioAObs,
      criticalBatteryRule, badWeatherRule, returnToBaseRule, avoidObstaclesRule,
      noFlyZoneRule, safeAltitudeRule, deliverCargoRule, pickupCargoRule,
      goToDeliveryRule, goToPickupRule, conserveEnergyRule, directPathRule,
      optimalAltitudeRule, MIN_BATTERY_EMERGENCY, MIN_BATTERY_RETURN,
      ALTITUDE_STEP, SAFETY_MAX_ALTITUDE_M, SAFETY_MIN_ALTITUDE_M]
    norm_num [List.filter_cons, isCriticalRule]
    rfl
  exact (claim2_critical_override controller0 scenarioAObs true criticalBatteryRule []
    rfl rfl hcrit).1

end DroneDelivery
